import Mathlib

/-!
Shallow embedding of the Mario side-scroller (src/src/components/MarioGame.tsx).

Coordinates and velocities are JavaScript numbers; they are modelled as exact
rationals.  Scores are integers.  The per-frame simulation step `updateGame`,
the procedural generator `spawnObstacles`, the key handlers and `resetGame`
are translated function by function from the source component.  React state
setters are modelled by threading the committed value through the step:
functional updates (`setScore (prev => ...)`, `setCameraX (prev => ...)`,
`setPowerUpActive (prev => ...)`) accumulate in order, and plain sets
(`setGameState`) overwrite, so the last write of a tick wins.  Reads of React
state inside a tick (`powerUpActive`, `cameraX`, `gameState`) see the values
captured when the tick began, which is how the source closure behaves.

`Math.random()` draws are passed in explicitly through `SpawnRand`, one field
per draw site of `spawnObstacles`, so the generator is a deterministic
function of the current state and the drawn values.
-/

set_option maxRecDepth 100000

namespace MarioGame

/-- Run state of the component: the `gameState` React state,
`"playing" | "paused" | "gameOver" | "won"`. -/
inductive GState where
  | playing
  | paused
  | gameOver
  | won
deriving DecidableEq

/-- Reward embedded in a brick: the `powerUpType` union
`"coin" | "speed" | "jump" | "shield"` (the `null` case is `Option.none`). -/
inductive Reward where
  | coin
  | speed
  | jump
  | shield
deriving DecidableEq

/-- The `GameObject` interface: used for the player and for enemies. -/
structure GameObject where
  x : ℚ
  y : ℚ
  width : ℚ
  height : ℚ
  velocityX : ℚ
  velocityY : ℚ
  onGround : Bool
deriving DecidableEq

/-- The `Platform` interface. -/
structure Platform where
  x : ℚ
  y : ℚ
  width : ℚ
  height : ℚ
deriving DecidableEq

/-- The `Brick` interface. -/
structure Brick where
  x : ℚ
  y : ℚ
  width : ℚ
  height : ℚ
  broken : Bool
  hasPowerUp : Bool
  powerUpType : Option Reward
deriving DecidableEq

/-- The `Coin` interface. -/
structure Coin where
  x : ℚ
  y : ℚ
  width : ℚ
  height : ℚ
  collected : Bool
deriving DecidableEq

/-- The `PowerUp` interface (falling boost spawned by a broken brick). -/
structure PowerUp where
  x : ℚ
  y : ℚ
  width : ℚ
  height : ℚ
  type : Reward
  collected : Bool
  velocityY : ℚ
deriving DecidableEq

/-- The `powerUpActive` React state: three independent modifier flags. -/
structure PowerUpFlags where
  speed : Bool
  jump : Bool
  shield : Bool
deriving DecidableEq

/-- The whole component state visible to the simulation: React state plus the
mutable refs (`playerRef`, `platformsRef`, `bricksRef`, `enemiesRef`,
`coinsRef`, `powerUpsRef`, `keysRef`). -/
structure FullState where
  gameState : GState
  score : ℤ
  cameraX : ℚ
  gameSpeed : ℤ
  powerUpActive : PowerUpFlags
  player : GameObject
  platforms : List Platform
  bricks : List Brick
  enemies : List GameObject
  coins : List Coin
  powerUps : List PowerUp
  keys : List String
deriving DecidableEq

/-- The five entity collections, as read and written by `spawnObstacles`. -/
structure Collections where
  platforms : List Platform
  bricks : List Brick
  enemies : List GameObject
  coins : List Coin
  powerUps : List PowerUp
deriving DecidableEq

/-- The `Math.random()` draws used for one brick of `spawnObstacles`:
the x-offset draw, the power-up presence draw, and the power-up kind draw. -/
structure BrickRand where
  offR : ℚ
  powR : ℚ
  typeR : ℚ
deriving DecidableEq

/-- All `Math.random()` draws of one `spawnObstacles` invocation. -/
structure SpawnRand where
  gapR : ℚ
  hR : ℚ
  wR : ℚ
  nR : ℚ
  brickRs : List BrickRand
  enemyR : ℚ
  dirR : ℚ
  coinR : ℚ
  coinOffR : ℚ
deriving DecidableEq

/-- Game constant `GRAVITY = 0.8`. -/
def GRAVITY : ℚ := 0.8

/-- Game constant `JUMP_FORCE = -15`. -/
def JUMP_FORCE : ℚ := -15

/-- Game constant `MOVE_SPEED = 5`. -/
def MOVE_SPEED : ℚ := 5

/-- Game constant `CANVAS_WIDTH = 800`. -/
def CANVAS_WIDTH : ℚ := 800

/-- Game constant `FINISH_LINE = 10000`. -/
def FINISH_LINE : ℚ := 10000

/-- The axis-aligned overlap test that the source repeats inline:
`a.x < b.x + b.width && a.x + a.width > b.x && a.y < b.y + b.height &&
a.y + a.height > b.y`. -/
def aabb (x1 y1 w1 h1 x2 y2 w2 h2 : ℚ) : Prop :=
  x1 < x2 + w2 ∧ x1 + w1 > x2 ∧ y1 < y2 + h2 ∧ y1 + h1 > y2

instance (x1 y1 w1 h1 x2 y2 w2 h2 : ℚ) : Decidable (aabb x1 y1 w1 h1 x2 y2 w2 h2) :=
  inferInstanceAs (Decidable (x1 < x2 + w2 ∧ x1 + w1 > x2 ∧ y1 < y2 + h2 ∧ y1 + h1 > y2))

/-- Initial player object (`playerRef` initialiser, also used by `resetGame`). -/
def initPlayer : GameObject :=
  { x := 100, y := 300, width := 30, height := 30
    velocityX := 0, velocityY := 0, onGround := false }

/-- The starting ground platform (`platformsRef` initialiser). -/
def startPlatform : Platform := { x := 0, y := 400, width := 200, height := 40 }

/-- State at component mount. -/
def initialState : FullState :=
  { gameState := GState.playing, score := 0, cameraX := 0, gameSpeed := 2
    powerUpActive := { speed := false, jump := false, shield := false }
    player := initPlayer, platforms := [startPlatform]
    bricks := [], enemies := [], coins := [], powerUps := [], keys := [] }

/-- Input handling and physics integration of `updateGame` (lines 239-267):
speed and jump multipliers from the active modifiers, horizontal velocity
from the held keys with friction `0.8` otherwise, jump impulse when grounded,
unconditional gravity, then `x += vx; y += vy`. -/
def inputPhysics (keys : List String) (mods : PowerUpFlags) (p : GameObject) : GameObject :=
  let currentMoveSpeed := if mods.speed then MOVE_SPEED * 1.5 else MOVE_SPEED
  let currentJumpForce := if mods.jump then JUMP_FORCE * 1.3 else JUMP_FORCE
  let vx :=
    if keys.contains ("ArrowLeft") || keys.contains ("a") then -currentMoveSpeed
    else if keys.contains ("ArrowRight") || keys.contains ("d") then currentMoveSpeed
    else p.velocityX * 0.8
  let p1 := { p with velocityX := vx }
  let p2 :=
    if (keys.contains ("ArrowUp") || keys.contains ("w") || keys.contains (" ")) && p1.onGround
    then { p1 with velocityY := currentJumpForce, onGround := false }
    else p1
  let p3 := { p2 with velocityY := p2.velocityY + GRAVITY }
  { p3 with x := p3.x + p3.velocityX, y := p3.y + p3.velocityY }

/-- The guard deciding whether `spawnObstacles` runs this tick
(lines 269-273): the last element of the platform array exists and
`player.x > lastPlatform.x - 200`. -/
def spawnTrigger (px : ℚ) (ps : List Platform) : Bool :=
  match ps.getLast? with
  | some lp => decide (px > lp.x - 200)
  | none => false

/-- Camera update of `updateGame` (lines 275-294): clamp the target to
`[0, FINISH_LINE - CANVAS_WIDTH]` and move a direction-dependent fraction
(`0.4` moving right, `0.2` moving left, `0.3` otherwise) of the remaining
distance toward it. -/
def cameraStep (cam : ℚ) (px vx : ℚ) : ℚ :=
  let targetCameraX := px - CANVAS_WIDTH / 2
  let clampedCameraX := max 0 (min targetCameraX (FINISH_LINE - CANVAS_WIDTH))
  let cameraSpeed : ℚ := if vx > 0 then 0.4 else if vx < 0 then 0.2 else 0.3
  cam + (clampedCameraX - cam) * cameraSpeed

/-- Resolution of the player against one platform (lines 298-327): on AABB
overlap pick one axis by velocity sign and relative position; landing from
above snaps to the top and sets `onGround`. -/
def platformStep (p : GameObject) (q : Platform) : GameObject :=
  if aabb p.x p.y p.width p.height q.x q.y q.width q.height then
    if p.velocityY > 0 ∧ p.y < q.y then
      { p with y := q.y - p.height, velocityY := 0, onGround := true }
    else if p.velocityY < 0 ∧ p.y > q.y then
      { p with y := q.y + q.height, velocityY := 0 }
    else if p.velocityX > 0 ∧ p.x < q.x then
      { p with x := q.x - p.width, velocityX := 0 }
    else if p.velocityX < 0 ∧ p.x > q.x then
      { p with x := q.x + q.width, velocityX := 0 }
    else p
  else p

/-- Accumulator of the brick loop: the player object, the score, and the
power-ups pushed into the power-up store by broken bricks this tick. -/
structure BrickAcc where
  player : GameObject
  score : ℤ
  spawned : List PowerUp
deriving DecidableEq

/-- Processing of one brick (lines 330-363): an intact overlapped brick hit
from below (`velocityY < 0` and the player below its top) breaks; a coin
reward scores 100, a modifier reward pushes a `PowerUp` at the brick's
footprint, and the player is bounced down with `velocityY = 2`. -/
def brickStep (acc : BrickAcc) (b : Brick) : BrickAcc × Brick :=
  if b.broken = false ∧ aabb acc.player.x acc.player.y acc.player.width acc.player.height
      b.x b.y b.width b.height then
    if acc.player.velocityY < 0 ∧ acc.player.y > b.y then
      let acc1 :=
        if b.hasPowerUp then
          match b.powerUpType with
          | some Reward.coin => { acc with score := acc.score + 100 }
          | some t =>
            { acc with spawned := acc.spawned ++
                [{ x := b.x, y := b.y + b.height, width := 20, height := 20
                   type := t, collected := false, velocityY := 0 }] }
          | none => acc
        else acc
      ({ acc1 with player := { acc1.player with velocityY := 2 } }, { b with broken := true })
    else (acc, b)
  else (acc, b)

/-- The brick loop: `for (const brick of bricks)`, returning the final
accumulator and the array contents after the loop. -/
def brickLoop : BrickAcc → List Brick → BrickAcc × List Brick
  | acc, [] => (acc, [])
  | acc, b :: rest =>
    let s := brickStep acc b
    let r := brickLoop s.1 rest
    (r.1, s.2 :: r.2)

/-- Landing resolution of a falling power-up against one platform
(lines 372-384): only the downward-landing axis is handled. -/
def puLand (pu : PowerUp) (q : Platform) : PowerUp :=
  if aabb pu.x pu.y pu.width pu.height q.x q.y q.width q.height then
    if pu.velocityY > 0 ∧ pu.y < q.y then
      { pu with y := q.y - pu.height, velocityY := 0 }
    else pu
  else pu

/-- Physics of one uncollected power-up (lines 368-384): half gravity,
position update, then the landing sweep over all platforms. -/
def puPhys (ps : List Platform) (pu : PowerUp) : PowerUp :=
  let pu1 := { pu with velocityY := pu.velocityY + GRAVITY * 0.5 }
  let pu2 := { pu1 with y := pu1.y + pu1.velocityY }
  ps.foldl puLand pu2

/-- `activatePowerUp` (lines 223-230), restricted to its immediate effect:
the modifier flag is set.  The deferred `setTimeout` expiry is a wall-clock
event outside the per-tick step and is not part of this relation. -/
def activatePowerUp (m : PowerUpFlags) : Reward → PowerUpFlags
  | Reward.speed => { m with speed := true }
  | Reward.jump => { m with jump := true }
  | Reward.shield => { m with shield := true }
  | Reward.coin => m

/-- Accumulator of the power-up loop: score, the modifier flags as they will
be committed, and the processed array contents. -/
structure PUAcc where
  score : ℤ
  mods : PowerUpFlags
  list : List PowerUp
deriving DecidableEq

/-- Processing of one power-up (lines 366-398): collected ones are skipped;
otherwise fall physics, then collection on overlap with the player
(sets `collected`, activates the modifier, scores 50). -/
def puStep (player : GameObject) (ps : List Platform) (acc : PUAcc) (pu : PowerUp) : PUAcc :=
  if pu.collected = true then { acc with list := acc.list ++ [pu] }
  else
    let pu3 := puPhys ps pu
    if aabb player.x player.y player.width player.height pu3.x pu3.y pu3.width pu3.height then
      { score := acc.score + 50, mods := activatePowerUp acc.mods pu3.type
        list := acc.list ++ [{ pu3 with collected := true }] }
    else { acc with list := acc.list ++ [pu3] }

/-- The power-up loop: `for (const powerUp of powerUps)`. -/
def puLoop (player : GameObject) (ps : List Platform) : PUAcc → List PowerUp → PUAcc
  | acc, [] => acc
  | acc, pu :: rest => puLoop player ps (puStep player ps acc pu) rest

/-- The enemy after its horizontal move, `enemy.x += enemy.velocityX`
(line 402). -/
def moveE (e : GameObject) : GameObject := { e with x := e.x + e.velocityX }

/-- The platform the enemy currently stands on: the first platform of the
array that fully AABB-overlaps it (lines 409-421, `break` on first match). -/
def findPlat (ps : List Platform) (e : GameObject) : Option Platform :=
  ps.find? (fun q => decide (aabb e.x e.y e.width e.height q.x q.y q.width q.height))

/-- Enemy movement and patrol AI for one tick (lines 400-436): move, look up
the current platform (edges default to `0` when there is none), and when off
a platform or at an edge flip the horizontal velocity and clamp the position
with the same edge tests. -/
def enemyStep (ps : List Platform) (e : GameObject) : GameObject :=
  let e1 := moveE e
  match findPlat ps e1 with
  | none =>
    let e2 := { e1 with velocityX := e1.velocityX * (-1) }
    if e2.x ≤ 0 then { e2 with x := 0 }
    else if e2.x + e2.width ≥ 0 then { e2 with x := 0 - e2.width }
    else e2
  | some q =>
    if e1.x ≤ q.x ∨ e1.x + e1.width ≥ q.x + q.width then
      let e2 := { e1 with velocityX := e1.velocityX * (-1) }
      if e2.x ≤ q.x then { e2 with x := q.x }
      else if e2.x + e2.width ≥ q.x + q.width then { e2 with x := q.x + q.width - e2.width }
      else e2
    else e1

/-- Accumulator of the enemy loop: the player, the score, and the run state
(a lethal contact sets it to `gameOver`). -/
structure EnemyAcc where
  player : GameObject
  score : ℤ
  gameState : GState
deriving DecidableEq

/-- The enemy loop (lines 400-461).  A stomped enemy is spliced out of the
array being iterated, so JavaScript's array iterator skips the element right
after it for the rest of this tick; that element is kept unprocessed.  The
second returned list is the array contents after the loop (with splices
applied); the third gives the final value of every input element in order
(splices ignored), which is what an aliasing pre-splice copy of the array
observes. -/
def enemyLoop (ps : List Platform) (mods : PowerUpFlags) :
    EnemyAcc → List GameObject → EnemyAcc × List GameObject × List GameObject
  | acc, [] => (acc, [], [])
  | acc, e :: rest =>
    let e1 := enemyStep ps e
    if aabb acc.player.x acc.player.y acc.player.width acc.player.height
        e1.x e1.y e1.width e1.height then
      if acc.player.velocityY > 0 ∧ acc.player.y < e1.y then
        let acc1 : EnemyAcc :=
          { player := { acc.player with velocityY := JUMP_FORCE / 2 }
            score := acc.score + 100, gameState := acc.gameState }
        match rest with
        | [] => (acc1, [], [e1])
        | f :: rest2 =>
          let r := enemyLoop ps mods acc1 rest2
          (r.1, f :: r.2.1, e1 :: f :: r.2.2)
      else
        let acc1 := if mods.shield then acc else { acc with gameState := GState.gameOver }
        let r := enemyLoop ps mods acc1 rest
        (r.1, e1 :: r.2.1, e1 :: r.2.2)
    else
      let r := enemyLoop ps mods acc rest
      (r.1, e1 :: r.2.1, e1 :: r.2.2)

/-- The coin loop (lines 463-475): first overlap collects the coin and
scores 50. -/
def coinLoop (player : GameObject) : ℤ → List Coin → ℤ × List Coin
  | sc, [] => (sc, [])
  | sc, c :: rest =>
    if c.collected = false ∧ aabb player.x player.y player.width player.height
        c.x c.y c.width c.height then
      let r := coinLoop player (sc + 50) rest
      (r.1, { c with collected := true } :: r.2)
    else
      let r := coinLoop player sc rest
      (r.1, c :: r.2)

/-- The last platform of the array, `platforms[platforms.length - 1]`
(the generator is only invoked with a non-empty array; the default is
unreachable). -/
def lastPlat (ps : List Platform) : Platform := ps.getLastD { x := 0, y := 0, width := 0, height := 0 }

/-- Spawn abscissa of `spawnObstacles` (lines 141-143):
`lastPlatform.x + lastPlatform.width + Math.random() * 200 + 100`. -/
def spawnX (ps : List Platform) (r : SpawnRand) : ℚ :=
  (lastPlat ps).x + (lastPlat ps).width + r.gapR * 200 + 100

/-- Vertical position of the new platform (lines 146-147):
`400 - (Math.random() * 60 + 20)`. -/
def platformY (r : SpawnRand) : ℚ := 400 - (r.hR * 60 + 20)

/-- The platform appended by `spawnObstacles` (lines 148-153). -/
def newPlatform (ps : List Platform) (r : SpawnRand) : Platform :=
  { x := spawnX ps r, y := platformY r, width := r.wR * 100 + 80, height := 20 }

/-- Reward drawn for one brick (lines 160-169): 30% chance of a power-up,
then kind by weighted draw (40% coin, 20% speed, 20% jump, 20% shield). -/
def brickReward (br : BrickRand) : Option Reward :=
  if br.powR > 0.7 then
    some (if br.typeR < 0.4 then Reward.coin
      else if br.typeR < 0.6 then Reward.speed
      else if br.typeR < 0.8 then Reward.jump
      else Reward.shield)
  else none

/-- Brick count of one spawn (line 156): `Math.floor(Math.random() * 3) + 1`. -/
def brickCount (r : SpawnRand) : ℕ := (Int.floor (r.nR * 3)).toNat + 1

/-- The bricks pushed by `spawnObstacles` (lines 155-180). -/
def newBricks (ps : List Platform) (r : SpawnRand) : List Brick :=
  (List.range (brickCount r)).map (fun i =>
    let br := r.brickRs.getD i { offR := 0, powR := 0, typeR := 0 }
    { x := spawnX ps r + i * 30 + br.offR * 20
      y := platformY r - 30 - i * 30
      width := 25, height := 25, broken := false
      hasPowerUp := decide (br.powR > 0.7)
      powerUpType := brickReward br })

/-- The enemy pushed by `spawnObstacles` with 70% probability
(lines 182-194). -/
def newEnemies (ps : List Platform) (r : SpawnRand) : List GameObject :=
  if r.enemyR > 0.3 then
    [{ x := spawnX ps r + 20, y := platformY r - 25, width := 25, height := 25
       velocityX := if r.dirR > 0.5 then 1.5 else -1.5, velocityY := 0, onGround := true }]
  else []

/-- The coin pushed by `spawnObstacles` with 80% probability
(lines 196-206). -/
def newCoins (ps : List Platform) (r : SpawnRand) : List Coin :=
  if r.coinR > 0.2 then
    [{ x := spawnX ps r + r.coinOffR * 60 + 10, y := platformY r - 40
       width := 20, height := 20, collected := false }]
  else []

/-- `spawnObstacles` (lines 140-221) as it acts on the mutable ref store:
pushes the new platform group, then replaces each ref array with its cleanup
filter against `cameraX - 200` — the platform filter keeps trailing edges
(`p.x + p.width > cleanupDistance`), while the brick, enemy, coin and
power-up filters keep leading edges (`x > cleanupDistance`). -/
def spawnObstacles (c : Collections) (cameraX : ℚ) (r : SpawnRand) : Collections :=
  let cleanupDistance := cameraX - 200
  { platforms := (c.platforms ++ [newPlatform c.platforms r]).filter
      (fun p => decide (p.x + p.width > cleanupDistance))
    bricks := (c.bricks ++ newBricks c.platforms r).filter
      (fun b => decide (b.x > cleanupDistance))
    enemies := (c.enemies ++ newEnemies c.platforms r).filter
      (fun e => decide (e.x > cleanupDistance))
    coins := (c.coins ++ newCoins c.platforms r).filter
      (fun k => decide (k.x > cleanupDistance))
    powerUps := c.powerUps.filter (fun u => decide (u.x > cleanupDistance)) }

/-- Win check (lines 477-480): reaching `FINISH_LINE` overwrites the run
state with `won`; this is the last `setGameState` of the tick. -/
def finishCheck (g : GState) (p : GameObject) : GState :=
  if p.x ≥ FINISH_LINE then GState.won else g

/-- World bounds (lines 482-489): floor `x` at 0; below the ground line clamp
`y` to 400, zero the fall and force `onGround`. -/
def boundsClamp (p : GameObject) : GameObject :=
  let p1 := if p.x < 0 then { p with x := 0 } else p
  if p1.y > 400 then { p1 with y := 400, velocityY := 0, onGround := true } else p1

/-- Final commit of one tick: the win check, the bounds clamps, and the game
speed recomputation (line 492) applied over the values accumulated by the
loops. -/
def commitFrame (g : GState) (p : GameObject) (score : ℤ) (cam : ℚ) (mods : PowerUpFlags)
    (platforms : List Platform) (bricks : List Brick) (enemies : List GameObject)
    (coins : List Coin) (powerUps : List PowerUp) (keys : List String) : FullState :=
  { gameState := finishCheck g p
    score := score
    cameraX := cam
    gameSpeed := 2 + Int.floor ((boundsClamp p).x / 1000)
    powerUpActive := mods
    player := boundsClamp p
    platforms := platforms, bricks := bricks, enemies := enemies
    coins := coins, powerUps := powerUps, keys := keys }

/-- One invocation of `updateGame` (lines 232-493).  The `platforms`,
`bricks`, `enemies` and `powerUps` locals alias the ref arrays captured at
the top of the function; when `spawnObstacles` runs this tick it pushes the
new group into those same arrays and then rebinds each ref to a freshly
filtered copy.  Hence on a spawning tick the collision loops still iterate
the captured arrays (new group included, evicted entries included, brick
power-up pushes excluded), eviction membership is decided on pre-loop
positions, and an enemy splice is invisible to the rebound ref array. -/
def updateGame (s : FullState) (r : SpawnRand) : FullState :=
  let mods := s.powerUpActive
  let p0 := inputPhysics s.keys mods s.player
  let trig := spawnTrigger p0.x s.platforms
  let cleanupDistance := s.cameraX - 200
  let platformsL := if trig then s.platforms ++ [newPlatform s.platforms r] else s.platforms
  let bricksL := if trig then s.bricks ++ newBricks s.platforms r else s.bricks
  let enemiesL := if trig then s.enemies ++ newEnemies s.platforms r else s.enemies
  let cam1 := cameraStep s.cameraX p0.x p0.velocityX
  let p1 := platformsL.foldl platformStep { p0 with onGround := false }
  let bres := brickLoop { player := p1, score := s.score, spawned := [] } bricksL
  let puInput := if trig then s.powerUps else s.powerUps ++ bres.1.spawned
  let pures := puLoop bres.1.player platformsL
    { score := bres.1.score, mods := mods, list := [] } puInput
  let eres := enemyLoop platformsL mods
    { player := bres.1.player, score := pures.score, gameState := s.gameState } enemiesL
  let coinsIn := if trig then (s.coins ++ newCoins s.platforms r).filter
      (fun k => decide (k.x > cleanupDistance)) else s.coins
  let cres := coinLoop eres.1.player eres.1.score coinsIn
  let platformsF := if trig then platformsL.filter
      (fun q => decide (q.x + q.width > cleanupDistance)) else s.platforms
  let bricksF := if trig then bres.2.filter
      (fun b => decide (b.x > cleanupDistance)) else bres.2
  let enemiesF := if trig then (enemiesL.zip eres.2.2).filterMap
      (fun pr => if pr.1.x > cleanupDistance then some pr.2 else none) else eres.2.1
  let powerUpsF := if trig then (pures.list.filter
      (fun u => decide (u.x > cleanupDistance))) ++ bres.1.spawned else pures.list
  commitFrame eres.1.gameState eres.1.player cres.1 cam1 pures.mods
    platformsF bricksF enemiesF cres.2 powerUpsF s.keys

/-- One pass of `gameLoop` (lines 122-138): the simulation step runs only
while the run state is `playing`; in every other state the pass is a no-op
on the simulation state. -/
def gameLoopStep (s : FullState) (r : SpawnRand) : FullState :=
  if s.gameState = GState.playing then updateGame s r else s

/-- `handleKeyDown` (lines 101-107): the pause key toggles
`prev === "playing" ? "paused" : "playing"` and is not recorded in the key
set; every other key is added to the set. -/
def handleKeyDown (s : FullState) (k : String) : FullState :=
  if k = "p" ∨ k = "P" then
    { s with gameState := if s.gameState = GState.playing then GState.paused else GState.playing }
  else { s with keys := s.keys.insert k }

/-- `handleKeyUp` (lines 109-111). -/
def handleKeyUp (s : FullState) (k : String) : FullState :=
  { s with keys := s.keys.erase k }

/-- `resetGame` (lines 633-658): restore the player, the starting platform,
empty the dynamic collections, zero score and camera, reset the speed tier,
clear the modifier flags, and set the run state to `playing`.  The held-key
set is not touched by the source. -/
def resetGame (s : FullState) : FullState :=
  { s with
    player := initPlayer
    platforms := [startPlatform]
    bricks := [], enemies := [], coins := [], powerUps := []
    score := 0, cameraX := 0, gameSpeed := 2
    powerUpActive := { speed := false, jump := false, shield := false }
    gameState := GState.playing }

/-- The camera offset after a run of ticks started at the initial offset `0`:
each tick contributes the pair (player x, player horizontal velocity) read by
the camera update. -/
def cameraRun (inputs : List (ℚ × ℚ)) : ℚ :=
  inputs.foldl (fun cam pv => cameraStep cam pv.1 pv.2) 0

/-- How many bricks flipped from intact to broken between two aligned
snapshots of the brick array. -/
def newlyBroken (old new : List Brick) : ℕ :=
  (old.zip new).countP (fun pr => !pr.1.broken && pr.2.broken)

/-- A spawn-draw vector with every `Math.random()` draw equal to `0`. -/
def rand0 : SpawnRand :=
  { gapR := 0, hR := 0, wR := 0, nR := 0, brickRs := []
    enemyR := 0, dirR := 0, coinR := 0, coinOffR := 0 }

/-- A state sitting in the `gameOver` terminal state. -/
def terminalState : FullState :=
  { gameState := GState.gameOver, score := 0, cameraX := 0, gameSpeed := 2
    powerUpActive := { speed := false, jump := false, shield := false }
    player := initPlayer, platforms := [startPlatform]
    bricks := [], enemies := [], coins := [], powerUps := [], keys := [] }

/-- A brick whose leading edge is behind the cleanup cutoff 800 but whose
trailing edge is ahead of it. -/
def c2Brick : Brick :=
  { x := 790, y := 300, width := 25, height := 25
    broken := false, hasPowerUp := false, powerUpType := none }

/-- Collections holding `c2Brick` and a platform for the generator to extend. -/
def c2Collections : Collections :=
  { platforms := [{ x := 1000, y := 380, width := 100, height := 20 }]
    bricks := [c2Brick], enemies := [], coins := [], powerUps := [] }

/-- A playing state whose player ends physics at x = 850, inside the window
where the source trigger (leading edge) and the claimed trigger (trailing
edge) disagree: the single platform spans 1000..1100. -/
def c3State : FullState :=
  { gameState := GState.playing, score := 0, cameraX := 0, gameSpeed := 2
    powerUpActive := { speed := false, jump := false, shield := false }
    player := { x := 845, y := 300, width := 30, height := 30
                velocityX := 0, velocityY := 0, onGround := false }
    platforms := [{ x := 1000, y := 380, width := 100, height := 20 }]
    bricks := [], enemies := [], coins := [], powerUps := []
    keys := ["ArrowRight"] }

/-- A state one step short of the finish line, with a patrolling enemy
placed so that the same tick also produces a lethal (non-stomp) contact:
the player lands on the platform under both, then overlaps the enemy from
the side while already past x = 10000. -/
def c6State : FullState :=
  { gameState := GState.playing, score := 0, cameraX := 9200, gameSpeed := 2
    powerUpActive := { speed := false, jump := false, shield := false }
    player := { x := 9998, y := 385, width := 30, height := 30
                velocityX := 0, velocityY := 0, onGround := false }
    platforms := [{ x := 9900, y := 400, width := 300, height := 40 },
                  { x := 10300, y := 400, width := 200, height := 40 }]
    bricks := []
    enemies := [{ x := 10005, y := 380, width := 25, height := 25
                  velocityX := 1.5, velocityY := 0, onGround := true }]
    coins := [], powerUps := []
    keys := ["ArrowRight"] }

/-! ### Shared lemmas about the platform sweep -/

theorem platformStep_height (p : GameObject) (q : Platform) :
    (platformStep p q).height = p.height := by
  unfold platformStep
  split_ifs <;> rfl

theorem platformStep_of_velocityY_zero (p : GameObject) (q : Platform)
    (h : p.velocityY = 0) :
    (platformStep p q).y = p.y ∧ (platformStep p q).velocityY = 0 ∧
    (platformStep p q).onGround = p.onGround := by
  unfold platformStep
  split_ifs with h1 h2 h3 h4 h5
  · rw [h] at h2; exact absurd h2.1 (lt_irrefl 0)
  · rw [h] at h3; exact absurd h3.1 (lt_irrefl 0)
  · exact ⟨rfl, h, rfl⟩
  · exact ⟨rfl, h, rfl⟩
  · exact ⟨rfl, h, rfl⟩
  · exact ⟨rfl, h, rfl⟩

theorem foldl_platformStep_stable (l : List Platform) (p : GameObject)
    (h : p.velocityY = 0) :
    (l.foldl platformStep p).y = p.y ∧ (l.foldl platformStep p).velocityY = 0 ∧
    (l.foldl platformStep p).onGround = p.onGround ∧
    (l.foldl platformStep p).height = p.height := by
  induction l generalizing p with
  | nil => exact ⟨rfl, h, rfl, rfl⟩
  | cons q tl ih =>
    have hq := platformStep_of_velocityY_zero p q h
    have hh := platformStep_height p q
    have ht := ih (platformStep p q) hq.2.1
    simp only [List.foldl_cons]
    exact ⟨ht.1.trans hq.1, ht.2.1, ht.2.2.1.trans hq.2.2, ht.2.2.2.trans hh⟩

/-- Claim C7: after `resetGame`, regardless of the prior state, the player is
back at its initial value (x = 100, y = 300, zero velocity, not grounded),
score and camera are 0, the platform list is exactly the starting platform,
the other collections are empty, no modifier flag is active, and the run
state is `playing`. -/
theorem reset_restores_initial_state (s : FullState) :
    (resetGame s).player = initPlayer ∧
    initPlayer = { x := 100, y := 300, width := 30, height := 30
                   velocityX := 0, velocityY := 0, onGround := false } ∧
    (resetGame s).score = 0 ∧
    (resetGame s).cameraX = 0 ∧
    (resetGame s).platforms = [startPlatform] ∧
    startPlatform = { x := 0, y := 400, width := 200, height := 40 } ∧
    (resetGame s).bricks = [] ∧
    (resetGame s).enemies = [] ∧
    (resetGame s).coins = [] ∧
    (resetGame s).powerUps = [] ∧
    (resetGame s).powerUpActive = { speed := false, jump := false, shield := false } ∧
    (resetGame s).gameState = GState.playing :=
  ⟨rfl, rfl, rfl, rfl, rfl, rfl, rfl, rfl, rfl, rfl, rfl, rfl⟩

/-- Witness for C7 at a concrete state. -/
theorem reset_restores_initial_state_witness :
    (resetGame terminalState).gameState = GState.playing :=
  (reset_restores_initial_state terminalState).2.2.2.2.2.2.2.2.2.2.2

/-- Counterexample to claim C1 as stated: from the terminal `gameOver` state,
the pause-toggle keydown event (not a restart) moves the run state straight
back to `playing`. -/
theorem claim1_counterexample :
    terminalState.gameState = GState.gameOver ∧
    (handleKeyDown terminalState ("p")).gameState = GState.playing := by
  decide

/-- Claim C1 (amended): while the run state is terminal (`gameOver` or
`won`) a loop pass is a no-op, so no simulation tick executes; however,
besides restart, the pause-toggle key also returns a terminal state to
`playing`. -/
theorem terminal_state_tick_noop_and_pause_resumes (s : FullState) (r : SpawnRand)
    (h : s.gameState = GState.gameOver ∨ s.gameState = GState.won) :
    gameLoopStep s r = s ∧ (handleKeyDown s ("p")).gameState = GState.playing := by
  constructor
  · unfold gameLoopStep
    rcases h with h | h <;> rw [h] <;> simp
  · unfold handleKeyDown
    rw [if_pos (Or.inl rfl)]
    rcases h with h | h <;> rw [h] <;> simp

/-- Witness for the amended C1 at a concrete terminal state. -/
theorem terminal_state_tick_noop_and_pause_resumes_witness :
    gameLoopStep terminalState rand0 = terminalState ∧
    (handleKeyDown terminalState ("p")).gameState = GState.playing :=
  terminal_state_tick_noop_and_pause_resumes terminalState rand0 (Or.inl rfl)

/-- Counterexample to claim C2 as stated: with `cameraOffset = 1000` the
cutoff is 800; `c2Brick` has trailing edge 815 > 800, so by the claim it
must be retained, yet `spawnObstacles` drops it (the brick filter keeps
`x > cutoff`, and 790 ≤ 800). -/
theorem claim2_counterexample :
    c2Brick.x + c2Brick.width > 1000 - 200 ∧
    c2Brick ∈ c2Collections.bricks ∧
    c2Brick ∉ (spawnObstacles c2Collections 1000 rand0).bricks := by
  with_unfolding_all decide

/-- Claim C2 (amended): on every invocation of the generator, platforms are
removed exactly when their trailing edge `x + width` is at or behind
`cameraOffset - 200`, while bricks, hazards, coins and boosts are removed
exactly when their leading edge `x` is at or behind `cameraOffset - 200`;
every other entity (the just-pushed group included) is retained. -/
theorem spawn_cleanup_filters (c : Collections) (cam : ℚ) (r : SpawnRand) :
    (∀ p : Platform, p ∈ (spawnObstacles c cam r).platforms ↔
      (p ∈ c.platforms ++ [newPlatform c.platforms r] ∧ p.x + p.width > cam - 200)) ∧
    (∀ b : Brick, b ∈ (spawnObstacles c cam r).bricks ↔
      (b ∈ c.bricks ++ newBricks c.platforms r ∧ b.x > cam - 200)) ∧
    (∀ e : GameObject, e ∈ (spawnObstacles c cam r).enemies ↔
      (e ∈ c.enemies ++ newEnemies c.platforms r ∧ e.x > cam - 200)) ∧
    (∀ k : Coin, k ∈ (spawnObstacles c cam r).coins ↔
      (k ∈ c.coins ++ newCoins c.platforms r ∧ k.x > cam - 200)) ∧
    (∀ u : PowerUp, u ∈ (spawnObstacles c cam r).powerUps ↔
      (u ∈ c.powerUps ∧ u.x > cam - 200)) := by
  refine ⟨fun p => ?_, fun b => ?_, fun e => ?_, fun k => ?_, fun u => ?_⟩ <;>
    simp [spawnObstacles, List.mem_filter, or_and_right]

/-- Witness for the amended C2: with the camera at 0 the same brick is kept. -/
theorem spawn_cleanup_filters_witness :
    c2Brick ∈ (spawnObstacles c2Collections 0 rand0).bricks :=
  ((spawn_cleanup_filters c2Collections 0 rand0).2.1 c2Brick).mpr
    ⟨by with_unfolding_all decide, by with_unfolding_all decide⟩

/-- Counterexample to claim C3 as stated: at post-physics x = 850 the claimed
condition `x > 1000 + 100 - 200` is false, so the generator must not run —
yet the tick grows the platform collection from 1 to 2 entries, showing the
generator was invoked (the source trigger is `x > lastPlatform.x - 200`,
without the width). -/
theorem claim3_counterexample :
    ¬((845 : ℚ) + 5 > 1000 + 100 - 200) ∧
    (inputPhysics c3State.keys c3State.powerUpActive c3State.player).x = 845 + 5 ∧
    c3State.platforms.length = 1 ∧
    (updateGame c3State rand0).platforms.length = 2 := by
  with_unfolding_all decide

/-- Claim C3 (amended): during a playing tick the generator is invoked iff
the platform array is non-empty and the character's post-integration x is
within 200 units of the rightmost platform's leading edge:
`character.x > rightmostPlatform.x - 200` (the platform's width is not
added). -/
theorem spawn_trigger_uses_leading_edge (px : ℚ) (ps : List Platform) :
    spawnTrigger px ps = true ↔ ∃ lp, ps.getLast? = some lp ∧ px > lp.x - 200 := by
  unfold spawnTrigger
  cases h : ps.getLast? with
  | none => simp
  | some lp => simp

/-- Witness for the amended C3 at the concrete platform list. -/
theorem spawn_trigger_uses_leading_edge_witness :
    spawnTrigger 850 [{ x := 1000, y := 380, width := 100, height := 20 }] = true :=
  (spawn_trigger_uses_leading_edge 850 _).mpr ⟨_, rfl, by norm_num⟩

/-! ### Camera bounds -/

theorem smooth_step_bounds (cam cl s : ℚ) (h0 : 0 ≤ cam) (h1 : cam ≤ 9200)
    (hc0 : 0 ≤ cl) (hc1 : cl ≤ 9200) (hs0 : 0 ≤ s) (hs1 : s ≤ 1) :
    0 ≤ cam + (cl - cam) * s ∧ cam + (cl - cam) * s ≤ 9200 := by
  constructor <;> nlinarith

theorem cameraStep_bounds (cam px vx : ℚ) (h0 : 0 ≤ cam)
    (h1 : cam ≤ FINISH_LINE - CANVAS_WIDTH) :
    0 ≤ cameraStep cam px vx ∧ cameraStep cam px vx ≤ FINISH_LINE - CANVAS_WIDTH := by
  have hfc : FINISH_LINE - CANVAS_WIDTH = (9200 : ℚ) := by
    norm_num [FINISH_LINE, CANVAS_WIDTH]
  rw [hfc] at h1 ⊢
  simp only [cameraStep]
  refine smooth_step_bounds cam _ _ h0 h1 (le_max_left _ _) ?_ ?_ ?_
  · refine max_le (by norm_num) ((min_le_right _ _).trans ?_)
    rw [hfc]
  · split_ifs <;> norm_num
  · split_ifs <;> norm_num

/-- Claim C5: starting from the initial camera offset 0 and updating each
tick by moving a direction-dependent fraction (0.2, 0.3 or 0.4) of the
remaining distance toward the clamped target, the offset always satisfies
`0 ≤ cameraOffset ≤ FINISH_LINE - CANVAS_WIDTH`, for every sequence of
per-tick player positions and velocities. -/
theorem camera_offset_bounded (inputs : List (ℚ × ℚ)) :
    0 ≤ cameraRun inputs ∧ cameraRun inputs ≤ FINISH_LINE - CANVAS_WIDTH := by
  have main : ∀ (l : List (ℚ × ℚ)) (cam : ℚ), 0 ≤ cam → cam ≤ FINISH_LINE - CANVAS_WIDTH →
      0 ≤ l.foldl (fun c pv => cameraStep c pv.1 pv.2) cam ∧
      l.foldl (fun c pv => cameraStep c pv.1 pv.2) cam ≤ FINISH_LINE - CANVAS_WIDTH := by
    intro l
    induction l with
    | nil => intro cam h0 h1; exact ⟨h0, h1⟩
    | cons hd tl ih =>
      intro cam h0 h1
      have h := cameraStep_bounds cam hd.1 hd.2 h0 h1
      simpa only [List.foldl_cons] using ih (cameraStep cam hd.1 hd.2) h.1 h.2
  exact main inputs 0 (le_refl 0) (by norm_num [FINISH_LINE, CANVAS_WIDTH])

/-- Witness for C5 on a concrete tick sequence. -/
theorem camera_offset_bounded_witness :
    0 ≤ cameraRun [(850, 5), (9000, -5), (20000, 0)] ∧
    cameraRun [(850, 5), (9000, -5), (20000, 0)] ≤ FINISH_LINE - CANVAS_WIDTH :=
  camera_offset_bounded [(850, 5), (9000, -5), (20000, 0)]

/-! ### The brick sweep breaks at most one brick per tick -/

theorem brickStep_skip (acc : BrickAcc) (b : Brick)
    (h : ¬(acc.player.velocityY < 0 ∧ acc.player.y > b.y)) :
    brickStep acc b = (acc, b) := by
  unfold brickStep
  rw [if_neg h, ite_self]

theorem brickStep_skip_of_no_hit (acc : BrickAcc) (b : Brick)
    (h : ¬(b.broken = false ∧ aabb acc.player.x acc.player.y acc.player.width
      acc.player.height b.x b.y b.width b.height)) :
    brickStep acc b = (acc, b) := by
  unfold brickStep
  rw [if_neg h]

theorem brickLoop_cons_snd (acc : BrickAcc) (b : Brick) (rest : List Brick) :
    (brickLoop acc (b :: rest)).2 =
      (brickStep acc b).2 :: (brickLoop (brickStep acc b).1 rest).2 := rfl

theorem brickLoop_skip_all (acc : BrickAcc) (bs : List Brick)
    (h : ¬ acc.player.velocityY < 0) :
    brickLoop acc bs = (acc, bs) := by
  induction bs with
  | nil => rfl
  | cons b rest ih =>
    simp [brickLoop, brickStep_skip acc b (fun hc => h hc.1), ih]

theorem newlyBroken_self (bs : List Brick) : newlyBroken bs bs = 0 := by
  induction bs with
  | nil => rfl
  | cons b rest ih =>
    unfold newlyBroken at ih ⊢
    rw [List.zip_cons_cons, List.countP_cons]
    cases hb : b.broken <;> simp [hb, ih]

/-- Claim C10: within one tick's brick sweep at most one brick transitions
from intact to broken, because resolving a break sets the player's vertical
velocity to the downward bounce 2, falsifying the upward-motion
precondition for every brick tested later in the sweep. -/
theorem at_most_one_brick_breaks_per_tick (acc : BrickAcc) (bs : List Brick) :
    newlyBroken bs (brickLoop acc bs).2 ≤ 1 := by
  induction bs generalizing acc with
  | nil => simp [brickLoop, newlyBroken]
  | cons b rest ih =>
    by_cases h1 : (b.broken = false ∧ aabb acc.player.x acc.player.y acc.player.width
        acc.player.height b.x b.y b.width b.height)
    · by_cases h2 : (acc.player.velocityY < 0 ∧ acc.player.y > b.y)
      · have hsnd : (brickStep acc b).2 = { b with broken := true } := by
          unfold brickStep; rw [if_pos h1, if_pos h2]
        have hvy : (brickStep acc b).1.player.velocityY = 2 := by
          unfold brickStep; rw [if_pos h1, if_pos h2]
        have hrest : (brickLoop (brickStep acc b).1 rest).2 = rest := by
          rw [brickLoop_skip_all (brickStep acc b).1 rest (by rw [hvy]; norm_num)]
        rw [brickLoop_cons_snd, hsnd, hrest]
        have hself := newlyBroken_self rest
        unfold newlyBroken at hself ⊢
        rw [List.zip_cons_cons, List.countP_cons, hself]
        split_ifs <;> norm_num
      · have hskip := brickStep_skip acc b h2
        have hout : (brickLoop acc (b :: rest)).2 = b :: (brickLoop acc rest).2 := by
          rw [brickLoop_cons_snd, hskip]
        rw [hout]
        have h3 := ih acc
        unfold newlyBroken at h3 ⊢
        rw [List.zip_cons_cons, List.countP_cons]
        have hpred : (!b.broken && b.broken) = false := by cases b.broken <;> rfl
        rw [hpred]
        simpa using h3
    · have hskip := brickStep_skip_of_no_hit acc b h1
      have hout : (brickLoop acc (b :: rest)).2 = b :: (brickLoop acc rest).2 := by
        rw [brickLoop_cons_snd, hskip]
      rw [hout]
      have h3 := ih acc
      unfold newlyBroken at h3 ⊢
      rw [List.zip_cons_cons, List.countP_cons]
      have hpred : (!b.broken && b.broken) = false := by cases b.broken <;> rfl
      rw [hpred]
      simpa using h3

/-- Witness for C10 on a concrete sweep: a player rising into two adjacent
intact coin bricks breaks only one of them. -/
theorem at_most_one_brick_breaks_per_tick_witness :
    newlyBroken
      [{ x := 100, y := 200, width := 25, height := 25
         broken := false, hasPowerUp := true, powerUpType := some Reward.coin },
       { x := 125, y := 200, width := 25, height := 25
         broken := false, hasPowerUp := true, powerUpType := some Reward.coin }]
      (brickLoop
        { player := { x := 105, y := 210, width := 30, height := 30
                      velocityX := 0, velocityY := -5, onGround := false }
          score := 0, spawned := [] }
        [{ x := 100, y := 200, width := 25, height := 25
           broken := false, hasPowerUp := true, powerUpType := some Reward.coin },
         { x := 125, y := 200, width := 25, height := 25
           broken := false, hasPowerUp := true, powerUpType := some Reward.coin }]).2 ≤ 1 :=
  at_most_one_brick_breaks_per_tick
    { player := { x := 105, y := 210, width := 30, height := 30
                  velocityX := 0, velocityY := -5, onGround := false }
      score := 0, spawned := [] }
    [{ x := 100, y := 200, width := 25, height := 25
       broken := false, hasPowerUp := true, powerUpType := some Reward.coin },
     { x := 125, y := 200, width := 25, height := 25
       broken := false, hasPowerUp := true, powerUpType := some Reward.coin }]

/-! ### Landing resolution -/

/-- Claim C9: during the platform sweep, if the state of the character when
a platform is tested overlaps that platform with strictly positive vertical
velocity and its (pre-correction) y strictly above the platform's y, then
after the whole sweep the character rests on that platform's top:
`y = platform.y - height`, `velocityY = 0` and `onGround = true`.  The
sweep state before the platform is `l1.foldl platformStep pre`, where `pre`
is the post-integration character with `onGround` cleared. -/
theorem landing_snaps_to_platform_top (pre : GameObject) (l1 l2 : List Platform) (q : Platform)
    (hov : aabb (l1.foldl platformStep pre).x (l1.foldl platformStep pre).y
      (l1.foldl platformStep pre).width (l1.foldl platformStep pre).height
      q.x q.y q.width q.height)
    (hv : (l1.foldl platformStep pre).velocityY > 0)
    (hy : (l1.foldl platformStep pre).y < q.y) :
    ((l1 ++ q :: l2).foldl platformStep pre).y = q.y - (l1.foldl platformStep pre).height ∧
    ((l1 ++ q :: l2).foldl platformStep pre).velocityY = 0 ∧
    ((l1 ++ q :: l2).foldl platformStep pre).onGround = true := by
  set c := l1.foldl platformStep pre with hc
  have hstep : platformStep c q =
      { c with y := q.y - c.height, velocityY := 0, onGround := true } := by
    unfold platformStep
    rw [if_pos hov, if_pos ⟨hv, hy⟩]
  have hrest := foldl_platformStep_stable l2 (platformStep c q) (by rw [hstep])
  rw [List.foldl_append, List.foldl_cons]
  refine ⟨?_, hrest.2.1, ?_⟩
  · rw [hrest.1, hstep]
  · rw [hrest.2.2.1, hstep]

/-- Witness for C9: a falling character overlapping a platform strictly
below it lands on its top with zeroed fall and the grounded flag set. -/
theorem landing_snaps_to_platform_top_witness :
    ((([] : List Platform) ++ ({ x := 40, y := 390, width := 100, height := 20 } : Platform) ::
        [({ x := 500, y := 100, width := 50, height := 10 } : Platform)]).foldl platformStep
      { x := 50, y := 365, width := 30, height := 30
        velocityX := 0, velocityY := 5, onGround := false }).y = 390 - 30 ∧
    ((([] : List Platform) ++ ({ x := 40, y := 390, width := 100, height := 20 } : Platform) ::
        [({ x := 500, y := 100, width := 50, height := 10 } : Platform)]).foldl platformStep
      { x := 50, y := 365, width := 30, height := 30
        velocityX := 0, velocityY := 5, onGround := false }).velocityY = 0 ∧
    ((([] : List Platform) ++ ({ x := 40, y := 390, width := 100, height := 20 } : Platform) ::
        [({ x := 500, y := 100, width := 50, height := 10 } : Platform)]).foldl platformStep
      { x := 50, y := 365, width := 30, height := 30
        velocityX := 0, velocityY := 5, onGround := false }).onGround = true :=
  landing_snaps_to_platform_top
    { x := 50, y := 365, width := 30, height := 30
      velocityX := 0, velocityY := 5, onGround := false }
    [] [{ x := 500, y := 100, width := 50, height := 10 }]
    { x := 40, y := 390, width := 100, height := 20 }
    (by with_unfolding_all decide) (by with_unfolding_all decide)
    (by with_unfolding_all decide)

/-! ### Hazard patrol AI -/

/-- Claim C4: for every hazard each tick, after its horizontal move: if it
overlaps no platform its horizontal velocity sign flips; if its current
(first overlapped) platform's left edge has been reached or passed, the
velocity flips and the position clamps to that left edge; if the right edge
has been reached or passed, the velocity flips and the position clamps to
`right edge - width`; strictly inside its platform, the post-move hazard is
left unchanged. -/
theorem hazard_edge_reversal (ps : List Platform) (e : GameObject) :
    (findPlat ps (moveE e) = none → (enemyStep ps e).velocityX = -e.velocityX) ∧
    (∀ q : Platform, findPlat ps (moveE e) = some q →
      (((moveE e).x ≤ q.x →
        enemyStep ps e = { moveE e with velocityX := -e.velocityX, x := q.x }) ∧
       (q.x < (moveE e).x → (moveE e).x + e.width ≥ q.x + q.width →
        enemyStep ps e =
          { moveE e with velocityX := -e.velocityX, x := q.x + q.width - e.width }) ∧
       (q.x < (moveE e).x → (moveE e).x + e.width < q.x + q.width →
        enemyStep ps e = moveE e))) := by
  constructor
  · intro hf
    simp only [enemyStep, hf]
    split_ifs <;> simp [moveE, mul_neg_one]
  · intro q hf
    refine ⟨?_, ?_, ?_⟩
    · intro hle
      simp only [enemyStep, hf, moveE] at *
      split_ifs <;> simp_all [mul_neg_one] <;> linarith
    · intro hgt hge
      simp only [enemyStep, hf, moveE] at *
      split_ifs <;> simp_all [mul_neg_one] <;> linarith
    · intro hgt hlt
      simp only [enemyStep, hf, moveE] at *
      split_ifs <;> simp_all [mul_neg_one] <;> linarith

/-- Witness for C4: a hazard reaching its platform's right edge flips its
velocity and clamps to the edge. -/
theorem hazard_edge_reversal_witness :
    enemyStep [{ x := 0, y := 400, width := 100, height := 40 }]
      { x := 90, y := 390, width := 25, height := 25
        velocityX := 1.5, velocityY := 0, onGround := true } =
    { moveE { x := 90, y := 390, width := 25, height := 25
              velocityX := 1.5, velocityY := 0, onGround := true } with
      velocityX := -(1.5 : ℚ), x := (0 : ℚ) + 100 - 25 } := by
  have h := hazard_edge_reversal [{ x := 0, y := 400, width := 100, height := 40 }]
    { x := 90, y := 390, width := 25, height := 25
      velocityX := 1.5, velocityY := 0, onGround := true }
  exact (h.2 { x := 0, y := 400, width := 100, height := 40 }
    (by with_unfolding_all decide)).2.1
    (by with_unfolding_all decide) (by with_unfolding_all decide)

/-! ### Brick rewards -/

theorem puStep_collect (pl : GameObject) (ps : List Platform) (pacc : PUAcc) (pu : PowerUp)
    (hc : pu.collected = false)
    (hov : aabb pl.x pl.y pl.width pl.height (puPhys ps pu).x (puPhys ps pu).y
      (puPhys ps pu).width (puPhys ps pu).height) :
    (puStep pl ps pacc pu).score = pacc.score + 50 ∧
    (puStep pl ps pacc pu).list = pacc.list ++ [{ puPhys ps pu with collected := true }] := by
  have h1 : ¬(pu.collected = true) := by rw [hc]; exact Bool.false_ne_true
  simp only [puStep]
  rw [if_neg h1, if_pos hov]
  exact ⟨rfl, rfl⟩

/-- Claim C8: breaking an intact brick by upward head contact marks it
broken and bounces the character down with `velocityY = 2`; a coin reward
adds exactly 100 to the score and spawns nothing; a modifier reward spawns
exactly one boost of that kind at the brick's footprint
(`x = brick.x`, `y = brick.y + brick.height`) and leaves the score
unchanged, the 50 points being granted only when that boost is later
collected by the character. -/
theorem brick_break_reward (acc : BrickAcc) (b : Brick)
    (hb : b.broken = false)
    (hov : aabb acc.player.x acc.player.y acc.player.width acc.player.height
      b.x b.y b.width b.height)
    (hv : acc.player.velocityY < 0) (hy : acc.player.y > b.y) :
    (brickStep acc b).2 = { b with broken := true } ∧
    (brickStep acc b).1.player = { acc.player with velocityY := 2 } ∧
    (b.hasPowerUp = true → b.powerUpType = some Reward.coin →
      (brickStep acc b).1.score = acc.score + 100 ∧
      (brickStep acc b).1.spawned = acc.spawned) ∧
    (∀ t : Reward, b.hasPowerUp = true → b.powerUpType = some t → t ≠ Reward.coin →
      (brickStep acc b).1.score = acc.score ∧
      (brickStep acc b).1.spawned = acc.spawned ++
        [{ x := b.x, y := b.y + b.height, width := 20, height := 20
           type := t, collected := false, velocityY := 0 }]) ∧
    (∀ (pl : GameObject) (ps : List Platform) (pacc : PUAcc) (pu : PowerUp),
      pu.collected = false →
      aabb pl.x pl.y pl.width pl.height (puPhys ps pu).x (puPhys ps pu).y
        (puPhys ps pu).width (puPhys ps pu).height →
      (puStep pl ps pacc pu).score = pacc.score + 50 ∧
      (puStep pl ps pacc pu).list = pacc.list ++ [{ puPhys ps pu with collected := true }]) := by
  refine ⟨?_, ?_, ?_, ?_, fun pl ps pacc pu hc hov2 => puStep_collect pl ps pacc pu hc hov2⟩
  · unfold brickStep
    rw [if_pos ⟨hb, hov⟩, if_pos ⟨hv, hy⟩]
  · unfold brickStep
    rw [if_pos ⟨hb, hov⟩, if_pos ⟨hv, hy⟩]
    cases hhp : b.hasPowerUp with
    | false => rfl
    | true =>
      cases hty : b.powerUpType with
      | none => rfl
      | some t => cases t <;> rfl
  · intro h1 h2
    unfold brickStep
    rw [if_pos ⟨hb, hov⟩, if_pos ⟨hv, hy⟩, h1, h2]
    exact ⟨rfl, rfl⟩
  · intro t h1 h2 h3
    unfold brickStep
    rw [if_pos ⟨hb, hov⟩, if_pos ⟨hv, hy⟩, h1, h2]
    cases t with
    | coin => exact absurd rfl h3
    | speed => exact ⟨rfl, rfl⟩
    | jump => exact ⟨rfl, rfl⟩
    | shield => exact ⟨rfl, rfl⟩

/-- Witness for C8: a concrete coin-reward brick break scores 100 and
bounces the player down. -/
theorem brick_break_reward_witness :
    (brickStep
      { player := { x := 105, y := 210, width := 30, height := 30
                    velocityX := 0, velocityY := -5, onGround := false }
        score := 0, spawned := [] }
      { x := 100, y := 200, width := 25, height := 25
        broken := false, hasPowerUp := true, powerUpType := some Reward.coin }).1.score
      = 0 + 100 ∧
    (brickStep
      { player := { x := 105, y := 210, width := 30, height := 30
                    velocityX := 0, velocityY := -5, onGround := false }
        score := 0, spawned := [] }
      { x := 100, y := 200, width := 25, height := 25
        broken := false, hasPowerUp := true, powerUpType := some Reward.coin }).1.player.velocityY
      = 2 := by
  have h := brick_break_reward
    { player := { x := 105, y := 210, width := 30, height := 30
                  velocityX := 0, velocityY := -5, onGround := false }
      score := 0, spawned := [] }
    { x := 100, y := 200, width := 25, height := 25
      broken := false, hasPowerUp := true, powerUpType := some Reward.coin }
    rfl (by with_unfolding_all decide) (by with_unfolding_all decide)
    (by with_unfolding_all decide)
  exact ⟨(h.2.2.1 rfl rfl).1, by rw [h.2.1]⟩

/-! ### The finish line wins the tick -/

theorem boundsClamp_x (p : GameObject) :
    (boundsClamp p).x = if p.x < 0 then 0 else p.x := by
  simp only [boundsClamp]
  split_ifs <;> rfl

theorem commitFrame_win (g : GState) (p : GameObject) (sc : ℤ) (cam : ℚ) (m : PowerUpFlags)
    (pf : List Platform) (bf : List Brick) (ef : List GameObject) (cf : List Coin)
    (uf : List PowerUp) (ks : List String)
    (h : (commitFrame g p sc cam m pf bf ef cf uf ks).player.x ≥ FINISH_LINE) :
    (commitFrame g p sc cam m pf bf ef cf uf ks).gameState = GState.won := by
  have hx : (commitFrame g p sc cam m pf bf ef cf uf ks).player.x = (boundsClamp p).x := rfl
  rw [hx, boundsClamp_x] at h
  show finishCheck g p = GState.won
  unfold finishCheck
  split_ifs with hw
  · rfl
  · exfalso
    by_cases hneg : p.x < 0
    · rw [if_pos hneg] at h
      have hpos : (0 : ℚ) < FINISH_LINE := by norm_num [FINISH_LINE]
      linarith
    · rw [if_neg hneg] at h
      exact hw h

/-- Claim C6: whenever a tick of the simulation ends with the character's x
at or past the finish line, the run state at the end of that tick is `won`,
whatever else happened during the tick — the win check is the last run-state
write, so it overrides a lethal hazard contact resolved earlier in the same
tick. -/
theorem finish_line_overrides_loss (s : FullState) (r : SpawnRand)
    (h : (updateGame s r).player.x ≥ FINISH_LINE) :
    (updateGame s r).gameState = GState.won := by
  unfold updateGame at h ⊢
  exact commitFrame_win _ _ _ _ _ _ _ _ _ _ _ h

/-- Witness for C6: in `c6State` the tick crosses the finish line while the
character also suffers a lethal (unshielded, non-stomp) hazard overlap —
with the character 5 units short of the line the identical contact ends in
`gameOver`, but past the line the tick ends `won`. -/
theorem finish_line_overrides_loss_witness :
    (updateGame { c6State with player := { c6State.player with x := 9993 } } rand0).gameState
      = GState.gameOver ∧
    (updateGame c6State rand0).player.x ≥ FINISH_LINE ∧
    (updateGame c6State rand0).gameState = GState.won :=
  ⟨by with_unfolding_all decide, by with_unfolding_all decide,
    finish_line_overrides_loss c6State rand0 (by with_unfolding_all decide)⟩

end MarioGame
